import Mathlib

/-!
Verification development for the `xdas-dev/tutorials` repository.

The repository is a Jupyter-notebook tutorial (`02_link_multi_acquisitions.ipynb`,
an earlier revision of it, and README files) over the external `xdas` library.
We shallowly embed:

* the Python code of every code cell as a small deep-embedded AST (`PyExpr` /
  `PyStmt`), translated statement by statement from the notebook sources;
* the recorded cell outputs (the `DataCollection` / `DataArray` trees printed by
  the kernel) as a tree type `DC`;
* a small heap semantics (`Store` of `HObj`) for the copy/mutation cell, so that
  deep-copy isolation is an actual frame property of an executed program and not
  an assumption;
* the README's setup sections as structured data.

All properties are stated over these embeddings and settled by computation.
-/

namespace XdasTutorials

/-! ## Python expression and statement AST

A fragment of Python large enough to hold every statement appearing in the
notebooks' code cells.  Lists inside the AST are represented by the mutual
types `PyExprList` / `PyStmtList` so that all scans are plain structural
recursions; `List`-based smart constructors are provided for readable data
entry. -/

mutual

inductive PyExpr where
  | name : String → PyExpr
  | strLit : String → PyExpr
  | numLit : Nat → PyExpr
  | ellipsisLit : PyExpr
  | attr : PyExpr → String → PyExpr
  | callE : PyExpr → PyExprList → PyExpr
  | kw : String → PyExpr → PyExpr
  | subscript : PyExpr → PyExpr → PyExpr
  | listLit : PyExprList → PyExpr
  | dictLit : PyExprList → PyExpr
  | pair : PyExpr → PyExpr → PyExpr
  | binop : String → PyExpr → PyExpr → PyExpr
  | fstring : PyExprList → PyExpr
  deriving DecidableEq

inductive PyExprList where
  | nil : PyExprList
  | cons : PyExpr → PyExprList → PyExprList
  deriving DecidableEq

end

mutual

inductive PyStmt where
  | importAs : String → String → PyStmt
  | exprStmt : PyExpr → PyStmt
  | assign : PyExpr → PyExpr → PyStmt
  | forIn : List String → PyExpr → PyStmtList → PyStmt
  | shell : String → PyStmt
  | funcDef : String → List String → PyStmtList → PyStmt
  | classDef : String → PyStmtList → PyStmt
  | tryStmt : PyStmtList → PyStmtList → PyStmt
  | ifStmt : PyExpr → PyStmtList → PyStmtList → PyStmt
  | whileStmt : PyExpr → PyStmtList → PyStmt
  deriving DecidableEq

inductive PyStmtList where
  | nil : PyStmtList
  | cons : PyStmt → PyStmtList → PyStmtList
  deriving DecidableEq

end

def PyExprList.ofList : List PyExpr → PyExprList
  | [] => .nil
  | e :: es => .cons e (PyExprList.ofList es)

def PyStmtList.ofList : List PyStmt → PyStmtList
  | [] => .nil
  | s :: ss => .cons s (PyStmtList.ofList ss)

/-- Builds a call expression `f(args...)` from an ordinary list of arguments. -/
def PyExpr.call (f : PyExpr) (args : List PyExpr) : PyExpr :=
  .callE f (PyExprList.ofList args)

/-- Builds a `for vars in iter: body` statement from an ordinary list. -/
def PyStmt.forr (vars : List String) (iter : PyExpr) (body : List PyStmt) : PyStmt :=
  .forIn vars iter (PyStmtList.ofList body)

/-! ### Scans over the AST -/

mutual

/-- All identifiers occurring in an expression: variable names, attribute
names, and keyword-argument names. -/
def PyExpr.idents : PyExpr → List String
  | .name s => [s]
  | .strLit _ => []
  | .numLit _ => []
  | .ellipsisLit => []
  | .attr e f => e.idents ++ [f]
  | .callE f args => f.idents ++ args.idents
  | .kw k e => k :: e.idents
  | .subscript e i => e.idents ++ i.idents
  | .listLit es => es.idents
  | .dictLit es => es.idents
  | .pair a b => a.idents ++ b.idents
  | .binop _ a b => a.idents ++ b.idents
  | .fstring es => es.idents

def PyExprList.idents : PyExprList → List String
  | .nil => []
  | .cons e es => e.idents ++ es.idents

end

mutual

/-- The callee names of all call expressions inside an expression: for
`f(...)` the name `f`, for `obj.m(...)` the method name `m`. -/
def PyExpr.callees : PyExpr → List String
  | .name _ => []
  | .strLit _ => []
  | .numLit _ => []
  | .ellipsisLit => []
  | .attr e _ => e.callees
  | .callE f args =>
      (match f with
       | .name s => [s]
       | .attr _ m => [m]
       | _ => []) ++ f.callees ++ args.callees
  | .kw _ e => e.callees
  | .subscript e i => e.callees ++ i.callees
  | .listLit es => es.callees
  | .dictLit es => es.callees
  | .pair a b => a.callees ++ b.callees
  | .binop _ a b => a.callees ++ b.callees
  | .fstring es => es.callees

def PyExprList.callees : PyExprList → List String
  | .nil => []
  | .cons e es => e.callees ++ es.callees

end

mutual

/-- Does the statement (recursively) contain a function or class definition? -/
def PyStmt.hasDef : PyStmt → Bool
  | .funcDef _ _ _ => true
  | .classDef _ _ => true
  | .forIn _ _ body => body.hasDef
  | .tryStmt b h => b.hasDef || h.hasDef
  | .ifStmt _ t e => t.hasDef || e.hasDef
  | .whileStmt _ b => b.hasDef
  | _ => false

def PyStmtList.hasDef : PyStmtList → Bool
  | .nil => false
  | .cons s ss => s.hasDef || ss.hasDef

end

mutual

/-- Does the statement (recursively) contain a shell (`!`) command? -/
def PyStmt.hasShell : PyStmt → Bool
  | .shell _ => true
  | .forIn _ _ body => body.hasShell
  | .tryStmt b h => b.hasShell || h.hasShell
  | .ifStmt _ t e => t.hasShell || e.hasShell
  | .whileStmt _ b => b.hasShell
  | _ => false

def PyStmtList.hasShell : PyStmtList → Bool
  | .nil => false
  | .cons s ss => s.hasShell || ss.hasShell

end

mutual

/-- Does the statement (recursively) contain a `try`/`except` block? -/
def PyStmt.hasTry : PyStmt → Bool
  | .tryStmt _ _ => true
  | .forIn _ _ body => body.hasTry
  | .ifStmt _ t e => t.hasTry || e.hasTry
  | .whileStmt _ b => b.hasTry
  | _ => false

def PyStmtList.hasTry : PyStmtList → Bool
  | .nil => false
  | .cons s ss => s.hasTry || ss.hasTry

end

mutual

/-- Does the statement (recursively) contain an `if` branch? -/
def PyStmt.hasIf : PyStmt → Bool
  | .ifStmt _ _ _ => true
  | .forIn _ _ body => body.hasIf
  | .tryStmt b h => b.hasIf || h.hasIf
  | .whileStmt _ b => b.hasIf
  | _ => false

def PyStmtList.hasIf : PyStmtList → Bool
  | .nil => false
  | .cons s ss => s.hasIf || ss.hasIf

end

mutual

/-- Does the statement (recursively) contain a `while` loop? -/
def PyStmt.hasWhile : PyStmt → Bool
  | .whileStmt _ _ => true
  | .forIn _ _ body => body.hasWhile
  | .tryStmt b h => b.hasWhile || h.hasWhile
  | .ifStmt _ t e => t.hasWhile || e.hasWhile
  | _ => false

def PyStmtList.hasWhile : PyStmtList → Bool
  | .nil => false
  | .cons s ss => s.hasWhile || ss.hasWhile

end

mutual

/-- Does the statement (recursively) contain a `for` loop? -/
def PyStmt.hasFor : PyStmt → Bool
  | .forIn _ _ _ => true
  | .tryStmt b h => b.hasFor || h.hasFor
  | .ifStmt _ t e => t.hasFor || e.hasFor
  | .whileStmt _ b => b.hasFor
  | _ => false

def PyStmtList.hasFor : PyStmtList → Bool
  | .nil => false
  | .cons s ss => s.hasFor || ss.hasFor

end

mutual

/-- All callee names of calls performed by a statement, recursively. -/
def PyStmt.callees : PyStmt → List String
  | .importAs _ _ => []
  | .exprStmt e => e.callees
  | .assign t v => t.callees ++ v.callees
  | .forIn _ it body => it.callees ++ body.callees
  | .shell _ => []
  | .funcDef _ _ body => body.callees
  | .classDef _ body => body.callees
  | .tryStmt b h => b.callees ++ h.callees
  | .ifStmt c t e => c.callees ++ t.callees ++ e.callees
  | .whileStmt c b => c.callees ++ b.callees

def PyStmtList.callees : PyStmtList → List String
  | .nil => []
  | .cons s ss => s.callees ++ ss.callees

end

mutual

/-- All identifiers mentioned by a statement, recursively (loop variables and
imported module names included). -/
def PyStmt.idents : PyStmt → List String
  | .importAs m a => [m, a]
  | .exprStmt e => e.idents
  | .assign t v => t.idents ++ v.idents
  | .forIn vs it body => vs ++ it.idents ++ body.idents
  | .shell _ => []
  | .funcDef n ps body => n :: ps ++ body.idents
  | .classDef n body => n :: body.idents
  | .tryStmt b h => b.idents ++ h.idents
  | .ifStmt c t e => c.idents ++ t.idents ++ e.idents
  | .whileStmt c b => c.idents ++ b.idents

def PyStmtList.idents : PyStmtList → List String
  | .nil => []
  | .cons s ss => s.idents ++ ss.idents

end

/-! ## DataCollection / DataArray value trees

The values printed by the notebook's execute results: a `DataCollection` is
either a list-like `DataSequence` or a dict-like `DataMapping`, and the leaves
are `DataArray` objects, of which only the displayed dimension names and sizes
are recorded.  As with the AST, nested lists are the mutual types `DCList` /
`DCEntries`, with `List`-based smart constructors for data entry. -/

mutual

inductive DC where
  | array : List (String × Nat) → DC
  | sequence : String → DCList → DC
  | mapping : String → DCEntries → DC
  deriving DecidableEq

inductive DCList where
  | nil : DCList
  | cons : DC → DCList → DCList
  deriving DecidableEq

inductive DCEntries where
  | enil : DCEntries
  | econs : String → DC → DCEntries → DCEntries
  deriving DecidableEq

end

def DCList.ofList : List DC → DCList
  | [] => .nil
  | d :: ds => .cons d (DCList.ofList ds)

def DCEntries.ofList : List (String × DC) → DCEntries
  | [] => .enil
  | (k, d) :: ds => .econs k d (DCEntries.ofList ds)

/-- Builds a list-like `DataSequence` collection from an ordinary list. -/
def DC.seqOf (label : String) (elems : List DC) : DC :=
  .sequence label (DCList.ofList elems)

/-- Builds a dict-like `DataMapping` collection from an ordinary entry list. -/
def DC.mapOf (label : String) (entries : List (String × DC)) : DC :=
  .mapping label (DCEntries.ofList entries)

mutual

/-- The dimension records of all `DataArray` leaves, in display order. -/
def DC.dims : DC → List (List (String × Nat))
  | .array ds => [ds]
  | .sequence _ es => es.dims
  | .mapping _ es => es.dims

def DCList.dims : DCList → List (List (String × Nat))
  | .nil => []
  | .cons d ds => d.dims ++ ds.dims

def DCEntries.dims : DCEntries → List (List (String × Nat))
  | .enil => []
  | .econs _ d ds => d.dims ++ ds.dims

end

mutual

/-- Same tree structure: same kind of node, same labels, same keys and same
nesting everywhere, with arbitrary `DataArray` leaves. -/
def DC.structEq : DC → DC → Bool
  | .array _, .array _ => true
  | .sequence l es, .sequence l' es' => l == l' && es.structEq es'
  | .mapping l es, .mapping l' es' => l == l' && es.structEq es'
  | _, _ => false

def DCList.structEq : DCList → DCList → Bool
  | .nil, .nil => true
  | .cons d ds, .cons d' ds' => d.structEq d' && ds.structEq ds'
  | _, _ => false

def DCEntries.structEq : DCEntries → DCEntries → Bool
  | .enil, .enil => true
  | .econs k d ds, .econs k' d' ds' => k == k' && d.structEq d' && ds.structEq ds'
  | _, _ => false

end

def DCEntries.lookup : DCEntries → String → Option DC
  | .enil, _ => none
  | .econs k d ds, key => if k == key then some d else ds.lookup key

def DCEntries.keyList : DCEntries → List String
  | .enil => []
  | .econs k _ ds => k :: ds.keyList

def DCList.toList : DCList → List DC
  | .nil => []
  | .cons d ds => d :: ds.toList

/-- Top-level lookup of a key in a dict-like collection. -/
def DC.getKey : DC → String → Option DC
  | .mapping _ es, k => es.lookup k
  | _, _ => none

/-- The keys of a dict-like collection (in insertion order). -/
def DC.mapKeys : DC → Option (List String)
  | .mapping _ es => some es.keyList
  | _ => none

/-- The index list of a list-like collection: consecutive positions from 0. -/
def DC.seqIndices : DC → Option (List Nat)
  | .sequence _ es => some (List.range es.toList.length)
  | _ => none

def DCEntries.vals : DCEntries → List DC
  | .enil => []
  | .econs _ d ds => d :: ds.vals

/-- The top-level element values of a collection (empty for a leaf array). -/
def DC.elems : DC → List DC
  | .array _ => []
  | .sequence _ es => es.toList
  | .mapping _ es => es.vals

/-- Is this value a `DataArray` leaf (as opposed to a nested collection)? -/
def DC.isArray : DC → Bool
  | .array _ => true
  | _ => false

/-- The size recorded for a named dimension in a dimension record. -/
def dimSize (n : String) (ds : List (String × Nat)) : Nat :=
  ((ds.find? (fun p => p.1 == n)).map Prod.snd).getD 0

/-- The names of the dimensions in a dimension record, in display order. -/
def dimNames (ds : List (String × Nat)) : List String :=
  ds.map Prod.fst

/-- The distance sizes of all arrays of a collection, in display order. -/
def DC.distanceSizes (t : DC) : List Nat :=
  t.dims.map (dimSize "distance")

/-- The time sizes of all arrays of a collection, in display order. -/
def DC.timeSizes (t : DC) : List Nat :=
  t.dims.map (dimSize "time")

mutual

/-- All string keys of dict literals occurring in an expression. -/
def PyExpr.dictKeys : PyExpr → List String
  | .name _ => []
  | .strLit _ => []
  | .numLit _ => []
  | .ellipsisLit => []
  | .attr e _ => e.dictKeys
  | .callE f args => f.dictKeys ++ args.dictKeys
  | .kw _ e => e.dictKeys
  | .subscript e i => e.dictKeys ++ i.dictKeys
  | .listLit es => es.dictKeys
  | .dictLit es => es.pairKeys ++ es.dictKeys
  | .pair a b => a.dictKeys ++ b.dictKeys
  | .binop _ a b => a.dictKeys ++ b.dictKeys
  | .fstring es => es.dictKeys

def PyExprList.dictKeys : PyExprList → List String
  | .nil => []
  | .cons e es => e.dictKeys ++ es.dictKeys

/-- The string keys of the top-level entries of an expression list read as
dict-literal entries. -/
def PyExprList.pairKeys : PyExprList → List String
  | .nil => []
  | .cons (.pair (.strLit k) _) es => k :: es.pairKeys
  | .cons _ es => es.pairKeys

end

/-- All string keys of dict literals occurring in a statement (the notebook's
dict literals all appear in expression position). -/
def PyStmt.dictKeys : PyStmt → List String
  | .exprStmt e => e.dictKeys
  | .assign t v => t.dictKeys ++ v.dictKeys
  | _ => []

/-! ## Recorded output values of `02_link_multi_acquisitions.ipynb`

Each value is transcribed from the `execute_result` display recorded in the
notebook. -/

/-- Cell 2 result: `xd.open_mfdatatree("data/gps_multicable/...", engine="asn")`. -/
def treeMulticable : DC :=
  DC.mapOf "Node"
    [("CCN", DC.mapOf "Cable"
        [("N", DC.seqOf "Acquisition" [.array [("time", 37500), ("distance", 9998)]])]),
     ("SER", DC.mapOf "Cable"
        [("N", DC.seqOf "Acquisition" [.array [("time", 37500), ("distance", 10000)]]),
         ("S", DC.seqOf "Acquisition" [.array [("time", 37500), ("distance", 10000)]])])]

/-- Cell 3 result: the `DataArray` at `dc["CCN"]["N"][0]`. -/
def arrCCN : DC := .array [("time", 37500), ("distance", 9998)]

/-- Cell 4 result: `dc_set` after the copy-and-mutate statements. -/
def treeSet : DC :=
  DC.mapOf "Node"
    [("CCN", DC.mapOf "Cable"
        [("N", DC.seqOf "Acquisition" [.array [("time", 37500), ("distance", 9998)]]),
         ("S", DC.seqOf "Acquisition"
            [.array [("time", 37500), ("distance", 9998)],
             .array [("time", 37500), ("distance", 9998)]])]),
     ("SER", DC.mapOf "Cable"
        [("N", DC.seqOf "Acquisition" [.array [("time", 37500), ("distance", 10000)]]),
         ("S", DC.seqOf "Acquisition" [.array [("time", 37500), ("distance", 10000)]])]),
     ("CAL", DC.mapOf "Cable"
        [("N", DC.seqOf "Acquisition" [.array [("time", 37500), ("distance", 9998)]])])]

/-- Cell 6 result: `dc.sel(time=slice("2023-11-03T12:26:40", "2023-11-03T12:27:50"))`. -/
def treeSel : DC :=
  DC.mapOf "Node"
    [("CCN", DC.mapOf "Cable"
        [("N", DC.seqOf "Acquisition" [.array [("time", 4376), ("distance", 9998)]])]),
     ("SER", DC.mapOf "Cable"
        [("N", DC.seqOf "Acquisition" [.array [("time", 4375), ("distance", 10000)]]),
         ("S", DC.seqOf "Acquisition" [.array [("time", 4376), ("distance", 10000)]])])]

/-- Cell 9 result: `xd.DataCollection([...], name="event")` built from a list. -/
def seqEvents : DC :=
  DC.seqOf "Event"
    [.array [("time", 1563), ("distance", 10000)],
     .array [("time", 4375), ("distance", 10000)]]

/-- Cell 10 result: `xd.DataCollection({...}, name="event")` built from a dict. -/
def mapEvents : DC :=
  DC.mapOf "Event"
    [("id_000000", .array [("time", 1563), ("distance", 10000)]),
     ("id_000001", .array [("time", 4375), ("distance", 10000)])]

/-- Cell 11 result: a dict-built collection whose values are collections. -/
def nestedEvents : DC :=
  DC.mapOf "Event"
    [("id_000000", DC.mapOf "Node"
        [("CCN", DC.mapOf "Cable"
            [("N", DC.seqOf "Acquisition" [.array [("time", 1563), ("distance", 9998)]])]),
         ("SER", DC.mapOf "Cable"
            [("N", DC.seqOf "Acquisition" [.array [("time", 1563), ("distance", 10000)]]),
             ("S", DC.seqOf "Acquisition" [.array [("time", 1563), ("distance", 10000)]])])]),
     ("id_000001", DC.mapOf "Node"
        [("CCN", DC.mapOf "Cable"
            [("N", DC.seqOf "Acquisition" [.array [("time", 4376), ("distance", 9998)]])]),
         ("SER", DC.mapOf "Cable"
            [("N", DC.seqOf "Acquisition" [.array [("time", 4375), ("distance", 10000)]]),
             ("S", DC.seqOf "Acquisition" [.array [("time", 4376), ("distance", 10000)]])])])]

/-- Cell 13 result: `xd.open_mfdataarray("data/gps_multiacq/*.hdf5", engine="asn")`. -/
def seqMultiacq : DC :=
  DC.seqOf "Collection"
    [.array [("time", 6250), ("distance", 9998)],
     .array [("time", 21000), ("distance", 6666)],
     .array [("time", 6000), ("distance", 24994)]]

/-! ## Notebook cells

The code of every cell of `02_link_multi_acquisitions.ipynb`, statement by
statement, and the kind of each recorded output. -/

/-- A recorded cell output: an `execute_result` display of a value, a stdout
stream, or an exception traceback (`output_type: error`). -/
inductive COut where
  | result : DC → COut
  | stream : COut
  | errorOut : String → COut
  deriving DecidableEq

/-- A notebook cell: markdown prose, or code with its execution count,
statements and recorded outputs. -/
inductive NbCell where
  | markdown : NbCell
  | code : Nat → List PyStmt → List COut → NbCell

/-- Shorthand for `obj.sel(time=slice(t0, t1))`, the notebook's selection idiom. -/
def selCall (obj : PyExpr) (t0 t1 : String) : PyExpr :=
  PyExpr.call (.attr obj "sel")
    [.kw "time" (PyExpr.call (.name "slice") [.strLit t0, .strLit t1])]

def cellSrc1 : List PyStmt :=
  [.importAs "numpy" "np", .importAs "xdas" "xd"]

def cellSrc2 : List PyStmt :=
  [.assign (.name "dc")
     (PyExpr.call (.attr (.name "xd") "open_mfdatatree")
       [.strLit "data/gps_multicable/{node}/{cable}/[acquisition].hdf5",
        .kw "engine" (.strLit "asn")]),
   .exprStmt (.name "dc")]

def cellSrc3 : List PyStmt :=
  [.exprStmt (.subscript (.subscript (.subscript (.name "dc") (.strLit "CCN"))
     (.strLit "N")) (.numLit 0))]

def cellSrc4 : List PyStmt :=
  [.assign (.name "dc_set") (PyExpr.call (.attr (.name "dc") "copy") [.kw "deep" (.name "True")]),
   .assign (.subscript (.subscript (.name "dc_set") (.strLit "CCN")) (.strLit "S"))
     (PyExpr.call (.attr (.subscript (.subscript (.name "dc") (.strLit "CCN")) (.strLit "N")) "copy") []),
   .exprStmt (PyExpr.call
     (.attr (.subscript (.subscript (.name "dc_set") (.strLit "CCN")) (.strLit "S")) "append")
     [PyExpr.call (.attr (.subscript (.subscript (.subscript (.name "dc") (.strLit "CCN"))
        (.strLit "N")) (.numLit 0)) "copy") []]),
   .exprStmt (PyExpr.call (.attr (.name "dc_set") "update")
     [.dictLit (PyExprList.ofList
        [.pair (.strLit "CAL") (PyExpr.call (.attr (.subscript (.name "dc") (.strLit "CCN")) "copy") [])])]),
   .exprStmt (.name "dc_set")]

def cellSrc5 : List PyStmt :=
  [PyStmt.forr ["node"] (.name "dc")
    [PyStmt.forr ["cable"] (.subscript (.name "dc") (.name "node"))
      [PyStmt.forr ["da"] (.subscript (.subscript (.name "dc") (.name "node")) (.name "cable"))
        [.exprStmt .ellipsisLit]]]]

def cellSrc6 : List PyStmt :=
  [.assign (.name "dc_sel") (selCall (.name "dc") "2023-11-03T12:26:40" "2023-11-03T12:27:50"),
   .exprStmt (.name "dc_sel")]

def cellSrc7 : List PyStmt :=
  [.exprStmt (PyExpr.call (.attr (.name "dc") "to_netcdf") [.strLit "outputs/multicable.nc"])]

def cellSrc8 : List PyStmt :=
  [.assign (.name "da")
     (.subscript (.subscript (.subscript (.name "dc") (.strLit "SER")) (.strLit "N")) (.numLit 0)),
   .exprStmt (PyExpr.call (.attr (.name "da") "to_netcdf") [.strLit "outputs/singlecable.nc"])]

def cellSrc9 : List PyStmt :=
  [.exprStmt (PyExpr.call (.attr (.name "xd") "DataCollection")
    [.listLit (PyExprList.ofList
       [selCall (.name "da") "2023-11-03T12:23:35" "2023-11-03T12:24:00",
        selCall (.name "da") "2023-11-03T12:26:40" "2023-11-03T12:27:50"]),
     .kw "name" (.strLit "event")])]

def cellSrc10 : List PyStmt :=
  [.exprStmt (PyExpr.call (.attr (.name "xd") "DataCollection")
    [.dictLit (PyExprList.ofList
       [.pair (.strLit "id_000000") (selCall (.name "da") "2023-11-03T12:23:35" "2023-11-03T12:24:00"),
        .pair (.strLit "id_000001") (selCall (.name "da") "2023-11-03T12:26:40" "2023-11-03T12:27:50")]),
     .kw "name" (.strLit "event")])]

def cellSrc11 : List PyStmt :=
  [.exprStmt (PyExpr.call (.attr (.name "xd") "DataCollection")
    [.dictLit (PyExprList.ofList
       [.pair (.strLit "id_000000") (selCall (.name "dc") "2023-11-03T12:23:35" "2023-11-03T12:24:00"),
        .pair (.strLit "id_000001") (selCall (.name "dc") "2023-11-03T12:26:40" "2023-11-03T12:27:50")]),
     .kw "name" (.strLit "event")])]

def cellSrc12 : List PyStmt :=
  [.shell "ls data/gps_multiacq"]

def cellSrc13 : List PyStmt :=
  [.assign (.name "dc")
     (PyExpr.call (.attr (.name "xd") "open_mfdataarray")
       [.strLit "data/gps_multiacq/*.hdf5", .kw "engine" (.strLit "asn")]),
   .exprStmt (.name "dc")]

def cellSrc14 : List PyStmt :=
  [.importAs "xdas.signal" "xs",
   .exprStmt (PyExpr.call (.name "print") [.strLit "#  dt     dx"]),
   .exprStmt (PyExpr.call (.name "print") [.strLit "------------"]),
   PyStmt.forr ["acq", "da"] (PyExpr.call (.name "enumerate") [.name "dc"])
     [.assign (.name "dt")
        (PyExpr.call (.attr (.name "xs") "get_sampling_interval") [.name "da", .strLit "time"]),
      .assign (.name "dx")
        (PyExpr.call (.attr (.name "xs") "get_sampling_interval") [.name "da", .strLit "distance"]),
      .exprStmt (PyExpr.call (.name "print")
        [.fstring (PyExprList.ofList
           [.name "acq", .binop "*" (.name "dt") (.numLit 1000), .name "dx"])])]]

/-- The full cell sequence of `02_link_multi_acquisitions.ipynb`, in document
order, markdown cells included. -/
def notebook02 : List NbCell :=
  [.markdown,
   .code 1 cellSrc1 [],
   .markdown,
   .code 2 cellSrc2 [.result treeMulticable],
   .markdown,
   .code 3 cellSrc3 [.result arrCCN],
   .markdown,
   .code 4 cellSrc4 [.result treeSet],
   .markdown,
   .code 5 cellSrc5 [],
   .markdown,
   .code 6 cellSrc6 [.result treeSel],
   .markdown,
   .code 7 cellSrc7 [],
   .markdown,
   .markdown,
   .code 8 cellSrc8 [],
   .markdown,
   .code 9 cellSrc9 [.result seqEvents],
   .markdown,
   .code 10 cellSrc10 [.result mapEvents],
   .markdown,
   .code 11 cellSrc11 [.result nestedEvents],
   .markdown,
   .code 12 cellSrc12 [.stream],
   .markdown,
   .code 13 cellSrc13 [.result seqMultiacq],
   .markdown,
   .code 14 cellSrc14 [.stream]]

/-- The cell sequence of the earlier notebook revision `unnamed/part_000`: its
code cells 1 through 11 are statement-for-statement identical to the main
notebook's, and it stops after the combined-collection example. -/
def part000 : List NbCell :=
  notebook02.take 23

/-! ### Whole-notebook scans -/

/-- The execution counts of the code cells, in document order. -/
def execCounts (nb : List NbCell) : List Nat :=
  nb.filterMap fun c =>
    match c with
    | .markdown => none
    | .code n _ _ => some n

/-- The execution counts of the code cells containing a given kind of
statement, in document order. -/
def cellsWhere (p : PyStmt → Bool) (nb : List NbCell) : List Nat :=
  nb.filterMap fun c =>
    match c with
    | .markdown => none
    | .code n src _ => if src.any p then some n else none

/-- All statements of all code cells of a notebook, in document order. -/
def nbStmts (nb : List NbCell) : List PyStmt :=
  nb.flatMap fun c =>
    match c with
    | .markdown => []
    | .code _ src _ => src

/-- The execution counts of the code cells recording an exception
(`output_type: error`) among their outputs, in document order. -/
def errorCells (nb : List NbCell) : List Nat :=
  nb.filterMap fun c =>
    match c with
    | .markdown => none
    | .code n _ outs =>
        if outs.any (fun o => match o with | .errorOut _ => true | _ => false)
        then some n else none

/-- All values displayed as `execute_result` outputs, in document order. -/
def resultValues (nb : List NbCell) : List DC :=
  nb.flatMap fun c =>
    match c with
    | .markdown => []
    | .code _ _ outs => outs.filterMap fun o =>
        match o with
        | .result v => some v
        | _ => none

/-- The statements of the code cell with a given execution count. -/
def cellSource (nb : List NbCell) (n : Nat) : List PyStmt :=
  nbStmts (nb.filter fun c =>
    match c with
    | .markdown => false
    | .code m _ _ => m == n)

/-- The recorded outputs of the code cell with a given execution count. -/
def cellOutputs (nb : List NbCell) (n : Nat) : List COut :=
  nb.flatMap fun c =>
    match c with
    | .markdown => []
    | .code m _ outs => if m == n then outs else []

/-! ## A heap semantics for the copy-and-mutate cell

Cell 4 mutates `dc_set`, a deep copy of `dc`, through Python reference
semantics.  To verify that `dc` itself is unchanged we execute the cell's
statements against an explicit store: objects live at `Nat` references, a
mapping or sequence holds references to its children, assignment and `append`
and `update` mutate in place, and `copy` allocates. -/

inductive HObj where
  | harray : List (String × Nat) → HObj
  | hsequence : String → List Nat → HObj
  | hmapping : String → List (String × Nat) → HObj
  deriving DecidableEq

/-- A store maps references (list positions) to heap objects. -/
abbrev Store := List HObj

def Store.getObj (s : Store) (r : Nat) : Option HObj := s[r]?

/-- Allocates an object at a fresh reference. -/
def Store.alloc (s : Store) (o : HObj) : Store × Nat := (s ++ [o], s.length)

/-- Reads the object graph rooted at a reference out to a pure value tree.
The fuel bounds the depth, so that reading is total on arbitrary stores. -/
def readTree : Nat → Store → Nat → Option DC
  | 0, _, _ => none
  | fuel + 1, s, r =>
    match s.getObj r with
    | some (.harray dims) => some (.array dims)
    | some (.hsequence lab refs) =>
        (refs.mapM (readTree fuel s)).map (DC.seqOf lab)
    | some (.hmapping lab ents) =>
        (ents.mapM fun p => (readTree fuel s p.2).map ((p.1, ·))).map (DC.mapOf lab)
    | none => none

mutual

/-- Writes a pure value tree into the store as a fresh object graph,
returning the new store and the root reference. -/
def writeTree : DC → Store → Store × Nat
  | .array dims, s => s.alloc (.harray dims)
  | .sequence lab es, s =>
      let (s', refs) := writeTreeList es s
      s'.alloc (.hsequence lab refs)
  | .mapping lab es, s =>
      let (s', ents) := writeTreeEntries es s
      s'.alloc (.hmapping lab ents)

def writeTreeList : DCList → Store → Store × List Nat
  | .nil, s => (s, [])
  | .cons d ds, s =>
      let (s', r) := writeTree d s
      let (s'', rs) := writeTreeList ds s'
      (s'', r :: rs)

def writeTreeEntries : DCEntries → Store → Store × List (String × Nat)
  | .enil, s => (s, [])
  | .econs k d ds, s =>
      let (s', r) := writeTree d s
      let (s'', rs) := writeTreeEntries ds s'
      (s'', (k, r) :: rs)

end

/-- Models `obj.copy()` and `obj.copy(deep=True)`: reads the graph out and
writes a disjoint fresh copy (the notebook performs no further mutation
through any of its copies, so a shallow `copy()` would be observationally
identical here). -/
def deepCopy (fuel : Nat) (s : Store) (r : Nat) : Option (Store × Nat) :=
  (readTree fuel s r).map fun t => writeTree t s

/-- Models `obj[key]` on a dict-like collection: the reference held at a key. -/
def getKeyRef (s : Store) (r : Nat) (k : String) : Option Nat :=
  match s.getObj r with
  | some (.hmapping _ ents) => (ents.find? fun p => p.1 == k).map Prod.snd
  | _ => none

/-- Models `obj[i]` on a list-like collection: the reference at a position. -/
def getIdxRef (s : Store) (r i : Nat) : Option Nat :=
  match s.getObj r with
  | some (.hsequence _ refs) => refs[i]?
  | _ => none

/-- Models `obj[key] = v` on a dict-like collection: in-place overwrite of an
existing key, or insertion at the end, as for a Python `dict`. -/
def setKey (s : Store) (r : Nat) (k : String) (v : Nat) : Option Store :=
  match s.getObj r with
  | some (.hmapping lab ents) =>
      let ents' := if ents.any (fun p => p.1 == k)
                   then ents.map fun p => if p.1 == k then (k, v) else p
                   else ents ++ [(k, v)]
      some (s.set r (.hmapping lab ents'))
  | _ => none

/-- Models `obj.append(v)` on a list-like collection: in-place extension. -/
def seqAppend (s : Store) (r v : Nat) : Option Store :=
  match s.getObj r with
  | some (.hsequence lab refs) => some (s.set r (.hsequence lab (refs ++ [v])))
  | _ => none

/-- Models `obj.update({...})` on a dict-like collection: `setKey` for each
entry in order. -/
def mapUpdate (s : Store) (r : Nat) (news : List (String × Nat)) : Option Store :=
  news.foldlM (fun st p => setKey st r p.1 p.2) s

/-- Executes cell 4 of the notebook against the heap semantics, starting from
a store holding `dc` as recorded by cell 2.  Returns the final store together
with the references of `dc` and `dc_set`. -/
def cell4Heap : Option (Store × Nat × Nat) := do
  let (s0, rdc) := writeTree treeMulticable []
  -- dc_set = dc.copy(deep=True)
  let (s1, rset) ← deepCopy 8 s0 rdc
  -- dc_set["CCN"]["S"] = dc["CCN"]["N"].copy()
  let rCCN ← getKeyRef s1 rdc "CCN"
  let rN ← getKeyRef s1 rCCN "N"
  let (s2, rNcopy) ← deepCopy 8 s1 rN
  let rsetCCN ← getKeyRef s2 rset "CCN"
  let s3 ← setKey s2 rsetCCN "S" rNcopy
  -- dc_set["CCN"]["S"].append(dc["CCN"]["N"][0].copy())
  let rS ← getKeyRef s3 rsetCCN "S"
  let r0 ← getIdxRef s3 rN 0
  let (s4, r0copy) ← deepCopy 8 s3 r0
  let s5 ← seqAppend s4 rS r0copy
  -- dc_set.update({"CAL": dc["CCN"].copy()})
  let (s6, rCCNcopy) ← deepCopy 8 s5 rCCN
  let s7 ← mapUpdate s6 rset [("CAL", rCCNcopy)]
  pure (s7, rdc, rset)

/-- What cell 4 leaves at the `dc` reference, read back as a value tree. -/
def cell4FinalDc : Option DC :=
  cell4Heap.bind fun (s, rdc, _) => readTree 8 s rdc

/-- What cell 4 leaves at the `dc_set` reference, read back as a value tree. -/
def cell4FinalDcSet : Option DC :=
  cell4Heap.bind fun (s, _, rset) => readTree 8 s rset

/-! ## The README's setup instructions

The `Setup the tutorial environment` part of `README.md`, transcribed section
by section with the shell commands of each fenced block. -/

structure SetupSection where
  heading : String
  commands : List String
  deriving DecidableEq

def readmeSetup : List SetupSection :=
  [⟨"Get the source code",
    ["git clone https://github.com/xdas-dev/tutorials.git", "cd tutorials",
     "git reset --hard HEAD", "git pull"]⟩,
   ⟨"Creating a dedicated environment",
    ["conda config --add channels conda-forge", "conda create -n xdas-tutorials",
     "conda activate xdas-tutorials", "conda install pip --yes"]⟩,
   ⟨"Installing Xdas", ["pip install xdas"]⟩,
   ⟨"Additional dependencies", ["pip install notebook seisbench"]⟩,
   ⟨"Download Data samples",
    ["wget https://zenodo.org/records/11212055/files/data.zip", "unzip data.zip",
     "rm -rf outputs", "mkdir -p outputs"]⟩]

/-- A prefix test on strings by character lists (kernel-reducible, unlike the
builtin `String.startsWith`). -/
def strStartsWith (s pat : String) : Bool :=
  decide (String.mk (s.toList.take pat.toList.length) = pat)

/-- A section concerns environment creation when it creates a conda (or venv)
environment. -/
def isEnvCreation (s : SetupSection) : Bool :=
  s.commands.any fun c => strStartsWith c "conda create" || strStartsWith c "python -m venv"

/-- A section concerns package installation when it runs an installer. -/
def isPkgInstall (s : SetupSection) : Bool :=
  s.commands.any fun c => strStartsWith c "pip install"

/-- A section concerns the sample-data download when it fetches data from a
URL. -/
def isDataDownload (s : SetupSection) : Bool :=
  s.commands.any fun c => strStartsWith c "wget https://"

/-- A section falls under one of the three setup concerns named by the spec. -/
def isNamedConcern (s : SetupSection) : Bool :=
  isEnvCreation s || isPkgInstall s || isDataDownload s

/-! ## The repository's files

The five source files: the notebook, its earlier revision, and three
documentation files (the README and two earlier revisions of it).  Only
notebooks carry code cells. -/

inductive RepoFile where
  | notebookFile : String → List NbCell → RepoFile
  | document : String → RepoFile

def repoFiles : List RepoFile :=
  [.notebookFile "02_link_multi_acquisitions.ipynb" notebook02,
   .document "README.md",
   .notebookFile "unnamed/part_000" part000,
   .document "unnamed/part_001",
   .document "unnamed/part_002"]

/-- All Python statements authored anywhere in the repository (documents
contain prose and shell snippets, no Python code cells). -/
def repoStmts : List PyStmt :=
  repoFiles.flatMap fun f =>
    match f with
    | .notebookFile _ cells => nbStmts cells
    | .document _ => []

/-! ## Formalisations of the spec's claims

The definitions in this section transcribe claim sentences of the spec (not
the source) so that a claim can be compared with — and where it disagrees,
refuted against — the embedded source above. -/

/-- The callee names belonging to the xdas API idiom used by the notebook:
the xdas functions and collection/array methods it calls, plus the builtin
`slice`, used solely to express label ranges for `sel`. -/
def libraryIdiomCallees : List String :=
  ["open_mfdatatree", "open_mfdataarray", "DataCollection", "sel", "to_netcdf",
   "copy", "append", "update", "get_sampling_interval", "slice"]

/-- Claim C1 as stated: every call a code cell performs is into the xdas API
idiom, and no cell authors a function or class definition, a shell command,
or other non-library computation. -/
def libraryOnlyCells (nb : List NbCell) : Bool :=
  (nbStmts nb).all fun s =>
    !s.hasDef && !s.hasShell && s.callees.all (· ∈ libraryIdiomCallees)

/-- Claim C2 as stated: no code cell authors any control construct (no loop,
no branch, no while, no try). -/
def noAuthoredControlFlow (nb : List NbCell) : Bool :=
  (nbStmts nb).all fun s => !s.hasFor && !s.hasIf && !s.hasWhile && !s.hasTry

/-- Claim C3 as stated: no cell authors try/except, and the cell opening the
mismatched-shape acquisitions (cell 13) records a raised exception among its
outputs. -/
def failuresSurfacedAsExceptions (nb : List NbCell) : Bool :=
  (nbStmts nb).all (fun s => !s.hasTry) && 13 ∈ errorCells nb

/-- Claim C8's "exactly the three setup concerns named", following the spec's
words: each of the three concerns is present, and every setup section falls
under one of the three. -/
def exactlyThreeSetupConcerns (secs : List SetupSection) : Bool :=
  secs.any isEnvCreation && secs.any isPkgInstall && secs.any isDataDownload &&
    secs.all isNamedConcern

/-- Identifiers whose appearance would indicate concurrency, scheduling or
cancellation machinery (module, class and keyword names of the Python
concurrency APIs). -/
def concurrencyIdents : List String :=
  ["threading", "asyncio", "multiprocessing", "concurrent", "futures",
   "Thread", "Pool", "ThreadPoolExecutor", "ProcessPoolExecutor",
   "async", "await", "sched", "signal_handler", "cancel"]

/-! ## Claims -/

/-- C1 (counterexample): the claim is false as stated — it excludes shell
commands, yet the statements of notebook cells include one (cell 12's
`!ls data/gps_multiacq`), so not every operation is an xdas API call. -/
theorem C1_claim_counterexample : libraryOnlyCells notebook02 = false := by decide

/-- C1 (amended): no code cell of the repository defines a function or class,
and every callee a cell invokes belongs to the xdas API idiom, except that
cell 12 runs a shell command (`!ls`) and cell 14 is the only cell calling
non-library callables (`print` and `enumerate`, for its formatting loop). -/
theorem C1_library_calls_amended :
    repoStmts.all (fun s => !s.hasDef) = true ∧
    cellsWhere PyStmt.hasShell notebook02 = [12] ∧
    cellsWhere (fun s => !s.callees.all (· ∈ libraryIdiomCallees)) notebook02 = [14] := by
  refine ⟨by decide, by decide, by decide⟩

/-- C2 (counterexample): the claim is false as stated — the notebook's cells
do author control flow beyond sequential execution, namely `for` loops. -/
theorem C2_claim_counterexample : noAuthoredControlFlow notebook02 = false := by decide

/-- C2 (amended): no code cell authors a branch, a while loop or a try block;
the only control constructs authored are `for` loops, appearing in exactly
cells 5 and 14. -/
theorem C2_control_flow_amended :
    (nbStmts notebook02).all (fun s => !s.hasIf && !s.hasWhile && !s.hasTry) = true ∧
    cellsWhere PyStmt.hasFor notebook02 = [5, 14] := by
  refine ⟨by decide, by decide⟩

/-- C3 (counterexample): the claim is false as stated — mismatched coordinate
shapes across acquisitions are not surfaced as an exception: cell 13, which
opens the mismatched-shape files, records no error output. -/
theorem C3_claim_counterexample : failuresSurfacedAsExceptions notebook02 = false := by
  decide

/-- C3 (amended): no code cell contains try/except or other failure-recovery
logic, and no cell of the recorded run raises an exception at all; in
particular the mismatched-coordinate-shapes case is surfaced by the library
returning a DataSequence of per-parametrization arrays (cell 13's result),
not by raising. -/
theorem C3_error_handling_amended :
    (nbStmts notebook02).all (fun s => !s.hasTry) = true ∧
    errorCells notebook02 = [] ∧
    cellOutputs notebook02 13 = [.result seqMultiacq] := by
  refine ⟨by decide, by decide, by decide⟩

/-- C4: across all five source files of the repository, no code cell authors
a function or class definition. -/
theorem C4_no_original_definitions :
    repoFiles.length = 5 ∧ repoStmts.all (fun s => !s.hasDef) = true := by
  refine ⟨by decide, by decide⟩

/-- C5: constructing `xd.DataCollection` from a list yields a list-like
DataSequence indexed by consecutive integers from 0 (cell 9), constructing it
from a dict yields a dict-like DataMapping indexed by exactly the string keys
written in the dict literal (cells 10 and 11), and elements may be DataArray
leaves (cells 9 and 10) or further nested collections (cell 11). -/
theorem C5_datacollection_flavours :
    seqEvents.seqIndices = some [0, 1] ∧
    seqEvents.elems.all DC.isArray = true ∧
    mapEvents.mapKeys = some ((cellSource notebook02 10).flatMap PyStmt.dictKeys) ∧
    mapEvents.elems.all DC.isArray = true ∧
    nestedEvents.mapKeys = some ((cellSource notebook02 11).flatMap PyStmt.dictKeys) ∧
    nestedEvents.elems.all (fun e => !e.isArray) = true := by
  refine ⟨by decide, by decide, by decide, by decide, by decide, by decide⟩

/-- C6: all eight values displayed by the notebook's execute results contain
only DataArray leaves whose dimension record is exactly `time` then
`distance` — every array shown is 2D with those two dimensions in that
order. -/
theorem C6_arrays_time_distance :
    (resultValues notebook02).length = 8 ∧
    (resultValues notebook02).all
      (fun v => v.dims.all fun ds => dimNames ds == ["time", "distance"]) = true := by
  refine ⟨by decide, by decide⟩

/-- C7: the execution counts of the notebook's code cells are exactly 1
through 14 in document order, hence strictly increasing, and no statement of
any cell mentions an identifier of the Python concurrency, scheduling or
cancellation machinery. -/
theorem C7_sequential_execution :
    execCounts notebook02 = [1, 2, 3, 4, 5, 6, 7, 8, 9, 10, 11, 12, 13, 14] ∧
    List.Pairwise (· < ·) (execCounts notebook02) ∧
    ((nbStmts notebook02).flatMap PyStmt.idents).all
      (fun s => !(s ∈ concurrencyIdents)) = true := by
  refine ⟨by decide, by decide, by decide⟩

/-- C8 (counterexample): the claim is false as stated — the README's setup
instructions do not contain exactly the three named concerns: its "Get the
source code" section (git clone) falls under none of environment creation,
package installation, or the sample-data download. -/
theorem C8_claim_counterexample : exactlyThreeSetupConcerns readmeSetup = false := by
  decide

/-- C8 (amended): the README's setup instructions contain all three named
concerns — environment creation (conda), package installation (pip) and the
sample-data download URL (zenodo) — and additionally a source-code retrieval
section; that section ("Get the source code") is the only one outside the
three named concerns. -/
theorem C8_readme_setup_amended :
    readmeSetup.any isEnvCreation = true ∧
    readmeSetup.any isPkgInstall = true ∧
    readmeSetup.any isDataDownload = true ∧
    (readmeSetup.filter fun s => !(isNamedConcern s)).map SetupSection.heading
      = ["Get the source code"] := by
  refine ⟨by decide, by decide, by decide, by decide⟩

/-- C9: label-based selection on the collection is elementwise and touches
only time — the recorded result of `dc.sel(time=slice(...))` (cell 6) has
exactly the same tree structure as `dc` (cell 2), the same distance size at
every array, and a strictly reduced time size at every array. -/
theorem C9_sel_elementwise_frame :
    treeSel.structEq treeMulticable = true ∧
    treeSel.distanceSizes = treeMulticable.distanceSizes ∧
    treeSel.timeSizes.length = treeMulticable.timeSizes.length ∧
    (treeSel.timeSizes.zip treeMulticable.timeSizes).all (fun p => p.1 < p.2) = true := by
  refine ⟨by decide, by decide, by decide, by decide⟩

/-- C10: executing cell 4's copy-and-mutate statements under the reference
semantics leaves the original `dc` exactly as recorded by cell 2 — with no
"S" cable under "CCN" and no "CAL" node — while `dc_set` ends up exactly as
the cell's recorded output (which does have both). -/
theorem C10_deepcopy_isolation :
    cell4FinalDc = some treeMulticable ∧
    cell4FinalDcSet = some treeSet ∧
    (treeMulticable.getKey "CCN").bind (fun c => c.getKey "S") = none ∧
    treeMulticable.getKey "CAL" = none ∧
    (treeSet.getKey "CCN").bind (fun c => c.getKey "S")
      = some (DC.seqOf "Acquisition"
          [.array [("time", 37500), ("distance", 9998)],
           .array [("time", 37500), ("distance", 9998)]]) ∧
    treeSet.getKey "CAL"
      = some (DC.mapOf "Cable"
          [("N", DC.seqOf "Acquisition" [.array [("time", 37500), ("distance", 9998)]])]) := by
  refine ⟨by decide, by decide, by decide, by decide, by decide, by decide⟩

end XdasTutorials
